import Mathlib

/-!
# Verification of the content-engine pipeline

A shallow embedding of the orchestration core of the `content-engine`
repository, together with proofs about it.  The embedded code:

* `packages/ai/text.ts` — `generateNarration` with its OpenAI / Gemini /
  stub provider chain and the zod `ResultSchema`;
* `services/tts/voice_gen.ts` — `synthesizeVoice` with its beep fallback;
* `apps/worker/index.ts` — `generateSubtitles` (sentence-level equal-share
  subtitle timing);
* `apps/worker/processors/clipProcessor.ts` — `processClip`,
  `generateNarrations`, `generateAudioAndSubtitles`, `createFinalMontage`,
  `uploadResultsToDrive`, `generateSimpleSRT`;
* the publish processor — `publishContent`, `uploadToPlatform`,
  `savePublishReceipt`;
* `apps/dashboard/lib/queue.ts` — the queue's `defaultJobOptions`
  (retry count and exponential backoff), with the queue engine's retry
  loop modelled from the specification (the engine itself is the external
  BullMQ library, not part of the repository sources).

External collaborators (HTTP providers, the filesystem, spawned python
processes) are modelled as oracle fields of environment structures: each
field records the outcome the collaborator would produce, and the embedded
control flow around those outcomes follows the TypeScript sources.  Working
directories are constant at runtime, so the `process.cwd()/../..` prefix of
artifact paths is elided; the path suffixes are kept verbatim.
-/

namespace ContentEngine

deriving instance DecidableEq for Except

/-- Embeds `Except.isOk`-style check used throughout: `true` exactly on `.ok`. -/
def exceptIsOk : Except ε α → Bool
  | .ok _ => true
  | .error _ => false

/-! ## JavaScript string primitives

`String.split`, `String.trim` and `String.prototype.split(' ')` of the
sources, re-implemented over `List Char` so that they are structurally
recursive (the core-library versions use `Substring` loops that the kernel
cannot evaluate).  Semantics match JavaScript: splitting keeps empty pieces,
`""` splits to `[""]`, and `trim` strips whitespace from both ends. -/

/-- Split a character list at every character satisfying `p`, keeping empty
pieces (like JavaScript `String.prototype.split` with a single-character
class; runs of separators produce empty pieces which callers filter out). -/
def splitChars (p : Char → Bool) : List Char → List (List Char)
  | [] => [[]]
  | c :: rest =>
    match splitChars p rest with
    | [] => [[c]]
    | piece :: pieces =>
      if p c then [] :: piece :: pieces else (c :: piece) :: pieces

/-- JavaScript `s.split(sep)` for a single-character separator. -/
def strSplitOnChar (sep : Char) (s : String) : List String :=
  (splitChars (fun c => c == sep) s.data).map (fun cs => String.mk cs)

/-- JavaScript `s.trim()`: strip whitespace from both ends. -/
def strTrim (s : String) : String :=
  String.mk (((s.data.dropWhile Char.isWhitespace).reverse.dropWhile
    Char.isWhitespace).reverse)

/-! ## `packages/core/prompts.ts` / `packages/core/types.ts` — data model -/

/-- Embeds `type Lang = "fr" | "en"` (packages/core/prompts.ts). -/
inductive Lang
  | fr
  | en
deriving DecidableEq

/-- Embeds `type NarrationStyle = "zen" | "adventure"` (packages/core/prompts.ts). -/
inductive NarrationStyle
  | zen
  | adventure
deriving DecidableEq

/-- Embeds `type NarrationRequest` (packages/core/prompts.ts). -/
structure NarrationRequest where
  lang : Lang
  style : NarrationStyle
  durationSec : Nat
  context : Option String := none
deriving DecidableEq

/-- Embeds `type NarrationResult` (packages/ai/text.ts): title, narration,
caption and hashtags.  These are all the fields the type has. -/
structure NarrationResult where
  title : String
  narration : String
  caption : String
  hashtags : List String
deriving DecidableEq

/-! ## JSON values and the zod `ResultSchema` (packages/ai/text.ts) -/

/-- JSON values, as produced by `JSON.parse` of a provider reply. -/
inductive Json
  | str (s : String)
  | num (n : Int)
  | bool (b : Bool)
  | arr (elems : List Json)
  | obj (fields : List (String × Json))
  | null

/-- Property lookup on a JSON object (used by `ResultSchema.parse`). -/
def Json.field : Json → String → Option Json
  | .obj fields, key => (fields.find? (fun p => p.1 == key)).map (fun p => p.2)
  | _, _ => none

/-- Whether a JSON value is an object carrying the given key.  Mirrors the
shape of the serialized result (`JSON.stringify` writes exactly the object's
own keys). -/
def Json.hasField : Json → String → Bool
  | .obj fields, key => fields.any (fun p => p.1 == key)
  | _, _ => false

/-- Embeds `z.string()` coercion. -/
def Json.asString : Json → Option String
  | .str s => some s
  | _ => none

/-- Embeds `z.array(z.string())` coercion. -/
def Json.asStringArray : Json → Option (List String)
  | .arr elems => elems.mapM Json.asString
  | _ => none

/-- Embeds `ResultSchema.parse` (packages/ai/text.ts):
`z.object({ title: z.string(), narration: z.string(), caption: z.string(),
hashtags: z.array(z.string()).min(6).max(20) })`.  `some` is a successful
parse; `none` is a thrown `ZodError`. -/
def ResultSchema.parse (j : Json) : Option NarrationResult :=
  match j.field "title", j.field "narration", j.field "caption",
      j.field "hashtags" with
  | some t, some n, some c, some h =>
    match t.asString, n.asString, c.asString, h.asStringArray with
    | some title, some narration, some caption, some hashtags =>
      if 6 ≤ hashtags.length ∧ hashtags.length ≤ 20 then
        some ⟨title, narration, caption, hashtags⟩
      else
        none
    | _, _, _, _ => none
  | _, _, _, _ => none

/-- The JSON rendering of a `NarrationResult` (what `JSON.stringify(result)`
writes to the meta files): exactly the four fields of the type. -/
def NarrationResult.toJson (r : NarrationResult) : Json :=
  .obj [("title", .str r.title), ("narration", .str r.narration),
    ("caption", .str r.caption), ("hashtags", .arr (r.hashtags.map .str))]

/-! ## `packages/ai/text.ts` — `generateNarration` -/

/-- Environment of `generateNarration`: the `AI_PROVIDER`, `OPENAI_API_KEY`
and `GEMINI_API_KEY` environment variables, and the provider replies.
A reply is `.error msg` when the fetch fails or returns a non-ok status,
`.ok none` when the reply content fails `JSON.parse`, and `.ok (some j)`
when the content parses to the JSON value `j`. -/
structure AiEnv where
  aiProvider : Option String
  openaiKey : Option String
  geminiKey : Option String
  openaiReply : Except String (Option Json)
  geminiReply : Except String (Option Json)

/-- The literal object `out` of `generateStub` (packages/ai/text.ts). -/
def stubOut : Json :=
  .obj [
    ("title", .str "Breath with the Ocean"),
    ("narration", .str "Dive deep into the tranquil waters where time slows and the world above fades away. Feel the gentle rhythm of your breath as you explore the underwater realm, surrounded by vibrant coral and curious marine life. Each moment beneath the surface is a meditation, a chance to connect with the ancient rhythms of the sea. Let the weightlessness carry you as you discover the hidden beauty that lies beneath the waves."),
    ("caption", .str "Experience the serenity of underwater exploration. Dive into a world of peace and wonder."),
    ("hashtags", .arr [.str "#ocean", .str "#diving", .str "#underwater",
      .str "#meditation", .str "#nature", .str "#peace", .str "#marine",
      .str "#serenity", .str "#breath", .str "#calm"])]

/-- Embeds `generateStub` (packages/ai/text.ts): returns the fixed `out` object
after `ResultSchema.parse`.  The request argument is ignored by the source
as well. -/
def generateStub (_req : NarrationRequest) : Except String NarrationResult :=
  match ResultSchema.parse stubOut with
  | some r => .ok r
  | none => .error "ZodError"

/-- The parsed stub result (the value `generateStub` returns). -/
def stubResult : NarrationResult :=
  { title := "Breath with the Ocean"
    narration := "Dive deep into the tranquil waters where time slows and the world above fades away. Feel the gentle rhythm of your breath as you explore the underwater realm, surrounded by vibrant coral and curious marine life. Each moment beneath the surface is a meditation, a chance to connect with the ancient rhythms of the sea. Let the weightlessness carry you as you discover the hidden beauty that lies beneath the waves."
    caption := "Experience the serenity of underwater exploration. Dive into a world of peace and wonder."
    hashtags := ["#ocean", "#diving", "#underwater", "#meditation", "#nature",
      "#peace", "#marine", "#serenity", "#breath", "#calm"] }

/-- Embeds `generateWithOpenAI` (packages/ai/text.ts): throws when
`OPENAI_API_KEY` is missing or the API call fails; on a reply whose content
fails `JSON.parse` or `ResultSchema.parse`, falls back to the stub. -/
def generateWithOpenAI (env : AiEnv) (req : NarrationRequest) :
    Except String NarrationResult :=
  match env.openaiKey with
  | none => .error "OPENAI_API_KEY not found"
  | some _ =>
    match env.openaiReply with
    | .error e => .error ("OpenAI API error: " ++ e)
    | .ok none => generateStub req
    | .ok (some j) =>
      match ResultSchema.parse j with
      | some r => .ok r
      | none => generateStub req

/-- Embeds `generateWithGemini` (packages/ai/text.ts): same shape as the OpenAI
path with `GEMINI_API_KEY`. -/
def generateWithGemini (env : AiEnv) (req : NarrationRequest) :
    Except String NarrationResult :=
  match env.geminiKey with
  | none => .error "GEMINI_API_KEY not found"
  | some _ =>
    match env.geminiReply with
    | .error e => .error ("Gemini API error: " ++ e)
    | .ok none => generateStub req
    | .ok (some j) =>
      match ResultSchema.parse j with
      | some r => .ok r
      | none => generateStub req

/-- Embeds `generateNarration` (packages/ai/text.ts): dispatch on
`process.env.AI_PROVIDER || "openai"`; any error from the chosen provider is
caught and answered with the stub. -/
def generateNarration (env : AiEnv) (req : NarrationRequest) :
    Except String NarrationResult :=
  let provider := env.aiProvider.getD "openai"
  let attempt :=
    match provider with
    | "openai" => generateWithOpenAI env req
    | "gemini" => generateWithGemini env req
    | _ => generateStub req
  match attempt with
  | .ok r => .ok r
  | .error _ => generateStub req

/-! ## `services/tts/voice_gen.ts` — `synthesizeVoice` -/

/-- Embeds `type VoiceInput` (services/tts/voice_gen.ts). -/
structure VoiceInput where
  text : String
  voiceId : Option String := none
  outPath : String
  provider : Option String := none
deriving DecidableEq

/-- Environment of `synthesizeVoice`: the `TTS_PROVIDER` and API-key
environment variables and the provider fetch outcomes. -/
structure TtsEnv where
  ttsProvider : Option String
  elevenKey : Option String
  openaiKey : Option String
  elevenReply : Except String Unit
  openaiReply : Except String Unit

/-- Embeds `synthesizeBeep` (services/tts/voice_gen.ts): always writes a sine-wave
WAV file at `outPath` and returns the path.  (The `path.resolve` working
directory prefix is elided.) -/
def synthesizeBeep (input : VoiceInput) : Except String String :=
  .ok input.outPath

/-- Embeds `synthesizeWithElevenLabs` (services/tts/voice_gen.ts). -/
def synthesizeWithElevenLabs (env : TtsEnv) (input : VoiceInput) :
    Except String String :=
  match env.elevenKey with
  | none => .error "ELEVENLABS_API_KEY not found"
  | some _ =>
    match env.elevenReply with
    | .error e => .error ("ElevenLabs API error: " ++ e)
    | .ok _ => .ok input.outPath

/-- Embeds `synthesizeWithOpenAI` (services/tts/voice_gen.ts). -/
def synthesizeWithOpenAI (env : TtsEnv) (input : VoiceInput) :
    Except String String :=
  match env.openaiKey with
  | none => .error "OPENAI_API_KEY not found"
  | some _ =>
    match env.openaiReply with
    | .error e => .error ("OpenAI API error: " ++ e)
    | .ok _ => .ok input.outPath

/-- Embeds `synthesizeVoice` (services/tts/voice_gen.ts): dispatch on
`input.provider || process.env.TTS_PROVIDER || "beep"`; any provider error
is caught and answered by the beep fallback. -/
def synthesizeVoice (env : TtsEnv) (input : VoiceInput) :
    Except String String :=
  let provider := input.provider.getD (env.ttsProvider.getD "beep")
  let attempt :=
    match provider with
    | "elevenlabs" => synthesizeWithElevenLabs env input
    | "openai" => synthesizeWithOpenAI env input
    | _ => synthesizeBeep input
  match attempt with
  | .ok p => .ok p
  | .error _ => synthesizeBeep input

/-- An `AiEnv` with nothing configured: no `AI_PROVIDER`, no API keys (the
replies are immaterial because no call can be made without a key). -/
def aiEnvNoKeys : AiEnv :=
  { aiProvider := none, openaiKey := none, geminiKey := none
    openaiReply := .error "unreachable", geminiReply := .error "unreachable" }

/-- A `TtsEnv` with nothing configured. -/
def ttsEnvNoKeys : TtsEnv :=
  { ttsProvider := none, elevenKey := none, openaiKey := none
    elevenReply := .error "unreachable", openaiReply := .error "unreachable" }

/-- A sample narration request (the one `processClip` issues). -/
def sampleRequest : NarrationRequest :=
  { lang := .en, style := .zen, durationSec := 30 }

/-- A sample voice-synthesis input. -/
def sampleVoiceInput : VoiceInput :=
  { text := "Hello world test", outPath := "samples/tts/0_voice.wav" }

/-! ## `apps/worker/index.ts` — `generateSubtitles`

Sentence-level equal-share subtitle timing.  Times are rationals (JavaScript
numbers carry no claim-relevant rounding here; the computation is exact
division and min). -/

/-- One SRT entry: `index\nstart --> stop\ntext`. -/
structure SrtEntry where
  index : Nat
  start : ℚ
  stop : ℚ
  text : String
deriving DecidableEq

/-- The sentence separators of `text.split(/[.!?]+/)`. -/
def isSentenceSep (c : Char) : Bool :=
  c == '.' || c == '!' || c == '?'

/-- Embeds `text.split(/[.!?]+/).filter((s) => s.trim().length > 0)`
(apps/worker/index.ts).  The regex `[.!?]+` differs from splitting at each
separator character only by the empty pieces between adjacent separators,
and those are removed by the filter. -/
def splitSentences (text : String) : List String :=
  ((splitChars isSentenceSep text.data).map (fun cs => String.mk cs)).filter
    (fun s => 0 < (strTrim s).length)

/-- The subtitle loop of `generateSubtitles` (apps/worker/index.ts): walk the
sentences, each entry running from `startTime` to
`min(startTime + timePerSentence, duration)`; `if (!sentence) continue`
skips sentences that trim to the empty string. -/
def subsLoop (timePerSentence duration : ℚ) :
    List String → Nat → ℚ → List SrtEntry
  | [], _, _ => []
  | s :: rest, i, startTime =>
    let sentence := strTrim s
    if sentence = "" then
      subsLoop timePerSentence duration rest (i + 1) startTime
    else
      let endTime := min (startTime + timePerSentence) duration
      ⟨i + 1, startTime, endTime, sentence⟩ ::
        subsLoop timePerSentence duration rest (i + 1) endTime

/-- Embeds `generateSubtitles` (apps/worker/index.ts): split the narration into
sentences and distribute them over the clip duration,
`timePerSentence = duration / sentences.length`.  (For zero sentences the
JavaScript division yields `Infinity` and the loop body never runs; here the
division yields the junk value `0`, equally unused.)  The returned list is
the sequence of entries written to the `.srt` file. -/
def generateSubtitles (text : String) (duration : ℚ) : List SrtEntry :=
  let sentences := splitSentences text
  let timePerSentence := duration / (sentences.length : ℚ)
  subsLoop timePerSentence duration sentences 0 0

/-! ## `apps/worker/processors/clipProcessor.ts` — `generateSimpleSRT` -/

/-- Embeds `generateSimpleSRT` (apps/worker/processors/clipProcessor.ts): split the
text into words on single spaces, group them into chunks of
`Math.ceil(2.5 * 3) = 8` words, and emit one three-second entry per chunk,
the end time capped at `max(30, words.length / 2.5)`.  The `j`-th chunk is
`words.slice(j*8, j*8+8)`, and the chunk count is `⌈words.length / 8⌉`,
matching the `for (i = 0; i < words.length; i += wordsPerChunk)` loop. -/
def generateSimpleSRT (text : String) : List SrtEntry :=
  let words := strSplitOnChar ' ' text
  let wordsPerSecond : ℚ := 5 / 2
  let duration : ℚ := max 30 ((words.length : ℚ) / wordsPerSecond)
  let wordsPerChunk : Nat := 8
  let numChunks : Nat := (words.length + wordsPerChunk - 1) / wordsPerChunk
  (List.range numChunks).map (fun j =>
    { index := j + 1
      start := (j : ℚ) * 3
      stop := min (((j : ℚ) + 1) * 3) duration
      text := " ".intercalate ((words.drop (j * wordsPerChunk)).take
        wordsPerChunk) })

/-! ## `apps/worker/processors/clipProcessor.ts` — `processClip`

The per-clip pipeline.  Each external call site is an oracle field of
`ClipEnv`; progress reports (`job.updateProgress(p)`) are accumulated in a
trace; per-stage adapter invocation counts are accumulated so that repeated
runs can be compared. -/

/-- An element of `narrationsInfo` (`generateNarrations`). -/
structure NarrationInfo where
  clipPath : String
  narration : NarrationResult
  index : Nat
deriving DecidableEq

/-- An element of the `generateAudioAndSubtitles` result. -/
structure AudioInfo where
  clipPath : String
  narration : NarrationResult
  index : Nat
  audioPath : String
  srtPath : String
deriving DecidableEq

/-- An element of the `createFinalMontage` result: the audio info plus the
final video path and the metadata snapshot. -/
structure FinalVideo where
  clipPath : String
  narration : NarrationResult
  index : Nat
  audioPath : String
  srtPath : String
  finalPath : String
  title : String
  caption : String
  hashtags : List String
deriving DecidableEq

/-- The `uploadResultsToDrive` return value (folder id plus the videos whose
upload responses were ok). -/
structure UploadOut where
  folderId : String
  uploadedFiles : List FinalVideo
deriving DecidableEq

/-- The success payload `processClip` returns. -/
structure Payload where
  clipId : String
  inputPath : String
  finalVideos : List FinalVideo
  uploadResults : Option UploadOut
deriving DecidableEq

/-- Outcome of one `processClip` run: the progress trace, how many times
each stage adapter was invoked, and the returned payload or thrown error. -/
structure RunResult where
  trace : List Nat
  downloadCalls : Nat
  ingestCalls : Nat
  narrationCalls : Nat
  ttsCalls : Nat
  montageCalls : Nat
  outcome : Except String Payload
deriving DecidableEq

/-- Environment of one `processClip` run: the job data flags and the outcome
each external collaborator (Drive API, `ingest.py`, `generateNarration`,
`synthesizeVoice`, `auto_edit.py`, Drive folder/upload API) would produce.
Error values carry the thrown message. -/
structure ClipEnv where
  isFromDrive : Bool
  driveFileName : String
  downloadResult : Except String String
  ingestResult : Except String (List String)
  narrationResult : Nat → Except String NarrationResult
  ttsResult : Nat → Except String Unit
  montageResult : Nat → Except String Unit
  createFolderResult : Except String String
  uploadOk : Nat → Bool

/-- Embeds `generateNarrations` (clipProcessor.ts): one `generateNarration` call
per clip; a failing call is logged and the clip dropped, the loop
continues. -/
def generateNarrations (env : ClipEnv) (clips : List String) :
    List NarrationInfo :=
  clips.enum.filterMap (fun ic =>
    match env.narrationResult ic.1 with
    | .ok n => some ⟨ic.2, n, ic.1⟩
    | .error _ => none)

/-- Embeds `generateAudioAndSubtitles` (clipProcessor.ts): per narration info, one
`synthesizeVoice` call and an SRT write under `samples/tts` and
`samples/subs`; failures are logged and the clip dropped. -/
def generateAudioAndSubtitles (env : ClipEnv) (infos : List NarrationInfo) :
    List AudioInfo :=
  infos.filterMap (fun info =>
    match env.ttsResult info.index with
    | .ok _ => some ⟨info.clipPath, info.narration, info.index,
        "samples/tts/" ++ toString info.index ++ "_voice.wav",
        "samples/subs/" ++ toString info.index ++ ".srt"⟩
    | .error _ => none)

/-- Embeds `createFinalMontage` (clipProcessor.ts): per audio info, one
`auto_edit.py` invocation writing `samples/shorts/<i>_final.mp4`; failures
are logged and the clip dropped. -/
def createFinalMontage (env : ClipEnv) (infos : List AudioInfo) :
    List FinalVideo :=
  infos.filterMap (fun info =>
    match env.montageResult info.index with
    | .ok _ => some ⟨info.clipPath, info.narration, info.index,
        info.audioPath, info.srtPath,
        "samples/shorts/" ++ toString info.index ++ "_final.mp4",
        info.narration.title, info.narration.caption,
        info.narration.hashtags⟩
    | .error _ => none)

/-- Embeds `uploadResultsToDrive` (clipProcessor.ts), after the folder was created:
upload each final video; a failed upload response is skipped, not thrown. -/
def uploadResultsToDrive (env : ClipEnv) (finals : List FinalVideo)
    (folderId : String) : UploadOut :=
  ⟨folderId, finals.filter (fun v => env.uploadOk v.index)⟩

/-- Steps 2–6 of `processClip`, after the local video path is known:
ingest, narrations, audio and subtitles, montage, optional Drive upload.
`trace` is the progress reported so far. -/
def processAfterDownload (env : ClipEnv) (clipId : String)
    (localVideoPath : String) (trace : List Nat) (downloadCalls : Nat) :
    RunResult :=
  match env.ingestResult with
  | .error e => ⟨trace, downloadCalls, 1, 0, 0, 0, .error e⟩
  | .ok clips =>
    let trace := trace ++ [35]
    let narrs := generateNarrations env clips
    let trace := trace ++ [55]
    let audios := generateAudioAndSubtitles env narrs
    let trace := trace ++ [75]
    let finals := createFinalMontage env audios
    let trace := trace ++ [90]
    if env.isFromDrive then
      match env.createFolderResult with
      | .error _ =>
        ⟨trace, downloadCalls, 1, clips.length, narrs.length, audios.length,
          .error "Failed to create Drive folder"⟩
      | .ok folderId =>
        ⟨trace ++ [100], downloadCalls, 1, clips.length, narrs.length,
          audios.length,
          .ok ⟨clipId, localVideoPath, finals,
            some (uploadResultsToDrive env finals folderId)⟩⟩
    else
      ⟨trace ++ [100], downloadCalls, 1, clips.length, narrs.length,
        audios.length, .ok ⟨clipId, localVideoPath, finals, none⟩⟩

/-- Embeds `processClip` (apps/worker/processors/clipProcessor.ts): report progress
5; download from Drive (reporting 15) when the job data says so, else use
the local `samples/clips/<clipId>.mp4`; then run the remaining stages.  Any
thrown error propagates to the worker, which marks the job failed. -/
def processClip (env : ClipEnv) (clipId : String) : RunResult :=
  let trace := [5]
  if env.isFromDrive then
    match env.downloadResult with
    | .error st =>
      ⟨trace, 1, 0, 0, 0, 0, .error ("Failed to download from Drive: " ++ st)⟩
    | .ok localPath => processAfterDownload env clipId localPath
        (trace ++ [15]) 1
  else
    processAfterDownload env clipId ("samples/clips/" ++ clipId ++ ".mp4")
      trace 0

/-- Running `processClip` twice in a row for the same job data.  The source
persists no `StageResult` between runs — `processClip` reads no cache and
checks no fingerprint — so the second run is an independent evaluation of
the same function on the same environment. -/
def processClipTwice (env : ClipEnv) (clipId : String) :
    RunResult × RunResult :=
  (processClip env clipId, processClip env clipId)

/-- The payload of a successful run (`defaultPayload` junk on error). -/
def payloadD (r : RunResult) : Payload :=
  match r.outcome with
  | .ok p => p
  | .error _ => ⟨"", "", [], none⟩

/-- A fully successful Drive-sourced run: two candidate clips, every
provider call succeeds. -/
def envDriveOk : ClipEnv :=
  { isFromDrive := true
    driveFileName := "video1.mp4"
    downloadResult := .ok "samples/raw/clip1_drive.mp4"
    ingestResult := .ok ["clip1_clip1.mp4", "clip1_clip2.mp4"]
    narrationResult := fun _ => .ok stubResult
    ttsResult := fun _ => .ok ()
    montageResult := fun _ => .ok ()
    createFolderResult := .ok "folder-1"
    uploadOk := fun _ => true }

/-- A fully successful local-source run (`isFromDrive` false). -/
def envLocalOk : ClipEnv :=
  { isFromDrive := false
    driveFileName := ""
    downloadResult := .ok "unused"
    ingestResult := .ok ["clip1_clip1.mp4", "clip1_clip2.mp4"]
    narrationResult := fun _ => .ok stubResult
    ttsResult := fun _ => .ok ()
    montageResult := fun _ => .ok ()
    createFolderResult := .ok "folder-1"
    uploadOk := fun _ => true }

/-- A local-source run in which the narration stage fails permanently for
clip 0 and everything else succeeds. -/
def envNarrFail : ClipEnv :=
  { isFromDrive := false
    driveFileName := ""
    downloadResult := .ok "unused"
    ingestResult := .ok ["clip1_clip1.mp4", "clip1_clip2.mp4"]
    narrationResult := fun i =>
      if i = 0 then .error "Permanent: provider rejected input"
      else .ok stubResult
    ttsResult := fun _ => .ok ()
    montageResult := fun _ => .ok ()
    createFolderResult := .ok "folder-1"
    uploadOk := fun _ => true }

/-! ## The publish processor — `publishContent`

`publishContent`, `uploadToPlatform` and `savePublishReceipt` from the
worker's publish processor.  Receipts are written to the filesystem; the
receipt store is modelled as an association list from file path to receipt,
`fs.writeFile` overwriting an existing path and appending a new one. -/

/-- The receipt object `savePublishReceipt` serializes. -/
structure Receipt where
  clipId : String
  platform : String
  publishId : String
  url : String
  success : Bool
deriving DecidableEq

/-- The receipts directory, keyed by file path. -/
abbrev ReceiptStore := List (String × Receipt)

/-- Embeds `fs.writeFile`: overwrite the file at `path` if it exists, else create
it. -/
def writeFile (store : ReceiptStore) (path : String) (r : Receipt) :
    ReceiptStore :=
  if store.any (fun p => p.1 == path) then
    store.map (fun p => if p.1 == path then (path, r) else p)
  else
    store ++ [(path, r)]

/-- The success payload `publishContent` returns. -/
structure PubPayload where
  clipId : String
  platform : String
  publishId : String
  url : String
deriving DecidableEq

/-- Outcome of one `publishContent` run: progress trace, result or thrown
error, and the receipt store after the run. -/
structure PubResult where
  trace : List Nat
  outcome : Except String PubPayload
  store : ReceiptStore
deriving DecidableEq

/-- Embeds `uploadToPlatform` (publish processor): produce
`publishId = platform_clipId_Date.now()` and a platform URL; an unsupported
platform throws.  `now` is the millisecond clock reading of the run. -/
def uploadToPlatform (clipId platform : String) (now : Nat) :
    Except String (String × String) :=
  let publishId := platform ++ "_" ++ clipId ++ "_" ++ toString now
  match platform with
  | "youtube" => .ok (publishId, "https://youtube.com/watch?v=" ++ publishId)
  | "tiktok" =>
    .ok (publishId, "https://tiktok.com/@user/video/" ++ publishId)
  | "meta" => .ok (publishId, "https://facebook.com/video/" ++ publishId)
  | _ => .error ("Unsupported platform: " ++ platform)

/-- The receipt file path `savePublishReceipt` writes:
`samples/receipts/<clipId>_<platform>_<Date.now()>.json`. -/
def receiptPath (clipId platform : String) (now : Nat) : String :=
  "samples/receipts/" ++ clipId ++ "_" ++ platform ++ "_" ++ toString now
    ++ ".json"

/-- Embeds `savePublishReceipt` (publish processor): write the receipt JSON at the
timestamped path.  No existing receipt for the (clip, platform) pair is
looked up. -/
def savePublishReceipt (clipId platform publishId url : String) (now : Nat)
    (store : ReceiptStore) : ReceiptStore :=
  writeFile store (receiptPath clipId platform now)
    ⟨clipId, platform, publishId, url, true⟩

/-- Embeds `publishContent` (publish processor): progress 10, 25, 50; upload to the
platform (throwing on an unsupported platform); progress 75, 90; save the
receipt; progress 100. -/
def publishContent (clipId platform : String) (now : Nat)
    (store : ReceiptStore) : PubResult :=
  let trace := [10, 25, 50]
  match uploadToPlatform clipId platform now with
  | .error e => ⟨trace, .error e, store⟩
  | .ok pu =>
    let trace := trace ++ [75, 90]
    let store := savePublishReceipt clipId platform pu.1 pu.2 now store
    ⟨trace ++ [100], .ok ⟨clipId, platform, pu.1, pu.2⟩, store⟩

/-- Publishing the same (clip, platform) pair twice in a row, at clock
readings `t1` then `t2`, starting from an empty receipts directory. -/
def publishTwice (clipId platform : String) (t1 t2 : Nat) :
    PubResult × PubResult :=
  let r1 := publishContent clipId platform t1 []
  let r2 := publishContent clipId platform t2 r1.store
  (r1, r2)

/-! ## `apps/dashboard/lib/queue.ts` — retry options and the retry loop -/

/-- The queue's `defaultJobOptions` that govern retries
(apps/dashboard/lib/queue.ts): `attempts: 3` and
`backoff: { type: 'exponential', delay: 2000 }`. -/
structure JobOptions where
  attempts : Nat
  backoffBase : Nat
deriving DecidableEq

/-- The options of the `content-processing` queue. -/
def contentQueueOptions : JobOptions := { attempts := 3, backoffBase := 2000 }

/-- The exponential backoff delay before re-enqueueing a job that has
already failed `retryCount + 1` times: `base × 2 ^ retryCount`. -/
def backoffDelay (opts : JobOptions) (retryCount : Nat) : Nat :=
  opts.backoffBase * 2 ^ retryCount

/-- Record of one job's life through the retry loop: how many attempts ran,
the backoff delays slept between them, and the terminal outcome. -/
structure RetryRun where
  attemptsMade : Nat
  backoffDelays : List Nat
  final : Except String Unit
deriving DecidableEq

/-- Modelled from the spec: the queue engine's retry loop (the BullMQ
library, which is not part of the repository sources; only its
configuration in apps/dashboard/lib/queue.ts is).  Per the spec: "on
Transient failure, re-enqueue with exponential backoff (base delay ×
2^retryCount, capped), up to a fixed maximum attempt count (3); exceeding
the cap marks the Job Error permanently and records the final error
message."  `attempt k` is the outcome of the k-th processing attempt
(0-based); `fuel` is the number of attempts still allowed. -/
def retryGo (opts : JobOptions) (attempt : Nat → Except String Unit) :
    Nat → Nat → RetryRun
  | 0, k => ⟨k, [], .error "no attempts configured"⟩
  | fuel + 1, k =>
    match attempt k with
    | .ok _ => ⟨k + 1, [], .ok ()⟩
    | .error e =>
      if fuel = 0 then ⟨k + 1, [], .error e⟩
      else
        let rest := retryGo opts attempt fuel (k + 1)
        ⟨rest.attemptsMade, backoffDelay opts k :: rest.backoffDelays,
          rest.final⟩

/-- Modelled from the spec: run a job under the queue's retry policy. -/
def runWithRetries (opts : JobOptions)
    (attempt : Nat → Except String Unit) : RetryRun :=
  retryGo opts attempt opts.attempts 0

/-- Sample one-sentence, ten-word narration text. -/
def srtSampleText : String :=
  "one two three four five six seven eight nine ten."

/-! # Theorems -/

/-! ## Helper lemmas -/

theorem exceptIsOk_false {ε α : Type} {x : Except ε α}
    (h : exceptIsOk x = false) : ∃ e, x = .error e := by
  cases x with
  | error e => exact ⟨e, rfl⟩
  | ok _ => simp [exceptIsOk] at h

theorem parse_hashtags_length {j : Json} {r : NarrationResult}
    (h : ResultSchema.parse j = some r) :
    6 ≤ r.hashtags.length ∧ r.hashtags.length ≤ 20 := by
  unfold ResultSchema.parse at h
  split at h
  · split at h
    · split at h
      · obtain ⟨rfl⟩ := h
        assumption
      · exact absurd h (by simp)
    · exact absurd h (by simp)
  · exact absurd h (by simp)

theorem generateStub_parses {req : NarrationRequest} {r : NarrationResult}
    (h : generateStub req = .ok r) : ResultSchema.parse stubOut = some r := by
  unfold generateStub at h
  split at h
  next heq => injection h with h2; exact h2 ▸ heq
  next => exact absurd h (by simp)

theorem generateWithOpenAI_parses {env : AiEnv} {req : NarrationRequest}
    {r : NarrationResult} (h : generateWithOpenAI env req = .ok r) :
    ∃ j, ResultSchema.parse j = some r := by
  unfold generateWithOpenAI at h
  split at h
  · exact absurd h (by simp)
  · split at h
    · exact absurd h (by simp)
    · exact ⟨stubOut, generateStub_parses h⟩
    · split at h
      next heq => injection h with h2; exact ⟨_, h2 ▸ heq⟩
      next => exact ⟨stubOut, generateStub_parses h⟩

theorem generateWithGemini_parses {env : AiEnv} {req : NarrationRequest}
    {r : NarrationResult} (h : generateWithGemini env req = .ok r) :
    ∃ j, ResultSchema.parse j = some r := by
  unfold generateWithGemini at h
  split at h
  · exact absurd h (by simp)
  · split at h
    · exact absurd h (by simp)
    · exact ⟨stubOut, generateStub_parses h⟩
    · split at h
      next heq => injection h with h2; exact ⟨_, h2 ▸ heq⟩
      next => exact ⟨stubOut, generateStub_parses h⟩

theorem generateNarration_parses {env : AiEnv} {req : NarrationRequest}
    {r : NarrationResult} (h : generateNarration env req = .ok r) :
    ∃ j, ResultSchema.parse j = some r := by
  unfold generateNarration at h
  dsimp only at h
  split at h
  next r2 heq =>
    injection h with h2
    subst h2
    split at heq
    · exact generateWithOpenAI_parses heq
    · exact generateWithGemini_parses heq
    · exact ⟨stubOut, generateStub_parses heq⟩
  next => exact ⟨stubOut, generateStub_parses h⟩

/-! ## Claim C10 -/

/-- Claim C10: every value returned by `generateNarration` — whether from
the OpenAI path, the Gemini path, or the stub fallback — went through
`ResultSchema.parse`, so its hashtags array always has between 6 and 20
entries (its title, narration and caption are strings by the type of
`NarrationResult`); this holds for every request and environment. -/
theorem generateNarration_schema_validated (env : AiEnv)
    (req : NarrationRequest) (r : NarrationResult)
    (h : generateNarration env req = .ok r) :
    (∃ j, ResultSchema.parse j = some r) ∧
    6 ≤ r.hashtags.length ∧ r.hashtags.length ≤ 20 := by
  obtain ⟨j, hj⟩ := generateNarration_parses h
  exact ⟨⟨j, hj⟩, parse_hashtags_length hj⟩

/-- Witness for C10: with nothing configured, `generateNarration` returns
the stub result, whose hashtags count is within the schema bounds. -/
theorem generateNarration_schema_validated_witness :
    generateNarration aiEnvNoKeys sampleRequest = .ok stubResult ∧
    6 ≤ stubResult.hashtags.length ∧ stubResult.hashtags.length ≤ 20 :=
  ⟨by rfl,
   (generateNarration_schema_validated aiEnvNoKeys sampleRequest stubResult
     (by rfl)).2⟩

/-! ## Claim C5 -/

/-- Counterexample for C5: with no provider configured the narration call
returns the stub result and the voice call returns the output path, but
neither result reports `fallbackUsed=true` — the serialized narration
result has no `fallbackUsed` key at all (and the voice result is a bare
path string). -/
theorem no_provider_fallbackUsed_counterexample :
    generateNarration aiEnvNoKeys sampleRequest = .ok stubResult ∧
    Json.hasField (NarrationResult.toJson stubResult) "fallbackUsed"
      = false ∧
    synthesizeVoice ttsEnvNoKeys sampleVoiceInput
      = .ok "samples/tts/0_voice.wav" :=
  ⟨by rfl, by decide, by rfl⟩

/-- Claim C5 (amended): when no provider is configured, narration and
voice-synthesis calls never throw and return non-empty results (the stub
narration, the rendered beep file path), but no `fallbackUsed` flag exists
in either result — the fallback is only logged, not reported. -/
theorem no_provider_fallback_no_throw (aenv : AiEnv)
    (req : NarrationRequest) (tenv : TtsEnv) (input : VoiceInput)
    (hprov : aenv.aiProvider = none) (hkey : aenv.openaiKey = none)
    (htp : input.provider = none) (htenv : tenv.ttsProvider = none)
    (hout : input.outPath ≠ "") :
    generateNarration aenv req = .ok stubResult ∧
    stubResult.narration ≠ "" ∧
    Json.hasField (NarrationResult.toJson stubResult) "fallbackUsed"
      = false ∧
    synthesizeVoice tenv input = .ok input.outPath ∧
    input.outPath ≠ "" := by
  obtain ⟨ap, okey, gk, orp, grp⟩ := aenv
  obtain ⟨tp, ek, tok, erly, orly⟩ := tenv
  obtain ⟨txt, vid, outp, iprov⟩ := input
  simp only at hprov hkey htp htenv
  subst hprov hkey htp htenv
  exact ⟨rfl, by decide, by decide, rfl, hout⟩

/-- Witness for C5 (amended) at the empty environments. -/
theorem no_provider_fallback_no_throw_witness :
    aiEnvNoKeys.aiProvider = none ∧ sampleVoiceInput.outPath ≠ "" ∧
    generateNarration aiEnvNoKeys sampleRequest = .ok stubResult ∧
    synthesizeVoice ttsEnvNoKeys sampleVoiceInput
      = .ok sampleVoiceInput.outPath := by
  have h := no_provider_fallback_no_throw aiEnvNoKeys sampleRequest
    ttsEnvNoKeys sampleVoiceInput rfl rfl rfl rfl (by decide)
  exact ⟨rfl, by decide, h.1, h.2.2.2.1⟩

/-! ## Claim C4 -/

theorem retryGo_fail_step (opts : JobOptions)
    (attempt : Nat → Except String Unit) (f k : Nat) (e : String)
    (he : attempt k = .error e) (hf : f ≠ 0) :
    retryGo opts attempt (f + 1) k =
      ⟨(retryGo opts attempt f (k + 1)).attemptsMade,
       backoffDelay opts k ::
         (retryGo opts attempt f (k + 1)).backoffDelays,
       (retryGo opts attempt f (k + 1)).final⟩ := by
  simp [retryGo, he, hf]

theorem retryGo_allFail (opts : JobOptions)
    (attempt : Nat → Except String Unit)
    (hfail : ∀ k, ∃ e, attempt k = .error e) :
    ∀ fuel, 1 ≤ fuel → ∀ k,
      (retryGo opts attempt fuel k).attemptsMade = k + fuel ∧
      (retryGo opts attempt fuel k).backoffDelays =
        (List.range (fuel - 1)).map (fun i => backoffDelay opts (k + i)) ∧
      ∃ e, attempt (k + fuel - 1) = .error e ∧
        (retryGo opts attempt fuel k).final = .error e := by
  intro fuel
  induction fuel with
  | zero => intro h; exact absurd h (by decide)
  | succ f ih =>
    intro _ k
    obtain ⟨e, he⟩ := hfail k
    by_cases hf : f = 0
    · subst hf
      refine ⟨by simp [retryGo, he], by simp [retryGo, he], e, ?_, ?_⟩
      · simpa using he
      · simp [retryGo, he]
    · have h1f : 1 ≤ f := Nat.one_le_iff_ne_zero.mpr hf
      obtain ⟨f2, rfl⟩ := Nat.exists_eq_add_of_le h1f
      obtain ⟨ih1, ih2, e2, he2, ih3⟩ := ih h1f (k + 1)
      have hrw : (List.range (1 + f2)).map
            (fun i => backoffDelay opts (k + i)) =
          backoffDelay opts k ::
            (List.range f2).map (fun i => backoffDelay opts (k + 1 + i)) := by
        rw [Nat.add_comm 1 f2, List.range_succ_eq_map, List.map_cons,
          List.map_map]
        congr 1
        simp
        intro a _
        congr 1
        omega
      rw [retryGo_fail_step opts attempt (1 + f2) k e he hf]
      refine ⟨?_, ?_, e2, ?_, ?_⟩
      · dsimp only
        rw [ih1]
        omega
      · dsimp only
        rw [ih2, show 1 + f2 + 1 - 1 = 1 + f2 from by omega,
          show 1 + f2 - 1 = f2 from by omega, hrw]
      · have heq : k + 1 + (1 + f2) - 1 = k + (1 + f2 + 1) - 1 := by omega
        rw [← heq]
        exact he2
      · exact ih3

/-- Claim C4: under the queue options of apps/dashboard/lib/queue.ts
(`attempts: 3`, exponential backoff with base 2000), a job whose every
processing attempt fails transiently is retried with delays
`2000·2^0, 2000·2^1`, makes exactly 3 attempts — never a fourth — and ends
with the error of its final attempt.  (The retry engine itself is the
BullMQ library, modelled from the spec in `retryGo`.) -/
theorem transient_job_errors_after_three_attempts
    (attempt : Nat → Except String Unit)
    (hfail : ∀ k, exceptIsOk (attempt k) = false) :
    (runWithRetries contentQueueOptions attempt).attemptsMade = 3 ∧
    (runWithRetries contentQueueOptions attempt).backoffDelays =
      [2000 * 2 ^ 0, 2000 * 2 ^ 1] ∧
    ∃ e, attempt 2 = .error e ∧
      (runWithRetries contentQueueOptions attempt).final = .error e := by
  have hfail2 : ∀ k, ∃ e, attempt k = .error e :=
    fun k => exceptIsOk_false (hfail k)
  obtain ⟨h1, h2, e, he, h3⟩ :=
    retryGo_allFail contentQueueOptions attempt hfail2 3 (by decide) 0
  refine ⟨?_, ?_, e, by simpa using he, ?_⟩
  · simpa [runWithRetries, contentQueueOptions] using h1
  · have : ((List.range (3 - 1)).map
        (fun i => backoffDelay contentQueueOptions (0 + i))) =
        [2000 * 2 ^ 0, 2000 * 2 ^ 1] := by
      simp [List.range_succ, backoffDelay, contentQueueOptions]
    simpa [runWithRetries, contentQueueOptions, this] using h2
  · simpa [runWithRetries, contentQueueOptions] using h3

/-- Witness for C4: a job that always times out makes exactly 3 attempts
with backoff delays 2000 and 4000 ms. -/
theorem transient_job_errors_after_three_attempts_witness :
    (runWithRetries contentQueueOptions
      (fun _ => .error "ETIMEDOUT")).attemptsMade = 3 ∧
    (runWithRetries contentQueueOptions
      (fun _ => .error "ETIMEDOUT")).backoffDelays =
      [2000 * 2 ^ 0, 2000 * 2 ^ 1] :=
  ⟨(transient_job_errors_after_three_attempts (fun _ => .error "ETIMEDOUT")
      (fun _ => rfl)).1,
   (transient_job_errors_after_three_attempts (fun _ => .error "ETIMEDOUT")
      (fun _ => rfl)).2.1⟩

/-! ## Clip pipeline helper lemmas -/

theorem processClip_trace_cases (env : ClipEnv) (clipId : String) :
    (processClip env clipId).trace = [5] ∨
    (processClip env clipId).trace = [5, 15] ∨
    (processClip env clipId).trace = [5, 15, 35, 55, 75, 90] ∨
    (processClip env clipId).trace = [5, 15, 35, 55, 75, 90, 100] ∨
    (processClip env clipId).trace = [5, 35, 55, 75, 90, 100] := by
  obtain ⟨fd, dfn, dl, ing, narr, tts, mon, fol, up⟩ := env
  cases fd <;> cases dl <;> cases ing <;> cases fol <;>
    simp [processClip, processAfterDownload]

theorem publishContent_trace_cases (clipId platform : String) (now : Nat)
    (store : ReceiptStore) :
    (publishContent clipId platform now store).trace = [10, 25, 50] ∨
    (publishContent clipId platform now store).trace =
      [10, 25, 50, 75, 90, 100] := by
  unfold publishContent
  cases uploadToPlatform clipId platform now <;> simp

/-! ## Claim C6 -/

/-- Claim C6: the progress values `processClip` and `publishContent` report
form a non-decreasing sequence in every run, whatever the stage outcomes,
and neither processor ever reports progress 0 (a reset to 0 happens only
when the queue engine starts a fresh retry attempt). -/
theorem progress_traces_nondecreasing (env : ClipEnv) (clipId : String)
    (pclip pplat : String) (now : Nat) (store : ReceiptStore) :
    List.Chain' (· ≤ ·) (processClip env clipId).trace ∧
    0 ∉ (processClip env clipId).trace ∧
    List.Chain' (· ≤ ·) (publishContent pclip pplat now store).trace ∧
    0 ∉ (publishContent pclip pplat now store).trace := by
  refine ⟨?_, ?_, ?_, ?_⟩
  · rcases processClip_trace_cases env clipId with h | h | h | h | h <;>
      rw [h] <;> simp [List.chain'_cons, List.chain'_singleton]
  · rcases processClip_trace_cases env clipId with h | h | h | h | h <;>
      rw [h] <;> decide
  · rcases publishContent_trace_cases pclip pplat now store with h | h <;>
      rw [h] <;> simp [List.chain'_cons, List.chain'_singleton]
  · rcases publishContent_trace_cases pclip pplat now store with h | h <;>
      rw [h] <;> decide

/-! ## Claim C7 -/

/-- Counterexample for C7: a fully successful run whose source is local
(not from Drive) reports 5, 35, 55, 75, 90, 100 — checkpoint 15 is never
reported, so the pipeline does not report exactly the checkpoint sequence
5, 15, 35, 55, 75, 90, 100 on every run. -/
theorem progress_checkpoints_counterexample :
    exceptIsOk (processClip envLocalOk "clip1").outcome = true ∧
    (processClip envLocalOk "clip1").trace = [5, 35, 55, 75, 90, 100] ∧
    (processClip envLocalOk "clip1").trace ≠ [5, 15, 35, 55, 75, 90, 100] :=
  ⟨by rfl, by rfl, by decide⟩

/-- Claim C7 (amended): on every successful run, `processClip` reports
exactly the checkpoints 5, 15, 35, 55, 75, 90, 100 when the source comes
from Drive, and 5, 35, 55, 75, 90, 100 otherwise — checkpoint 15 follows
the Drive download and is skipped for local sources.  Failed runs report a
prefix of the same sequence. -/
theorem progress_checkpoints_on_success (env : ClipEnv) (clipId : String)
    (h : exceptIsOk (processClip env clipId).outcome = true) :
    (processClip env clipId).trace =
      if env.isFromDrive then [5, 15, 35, 55, 75, 90, 100]
      else [5, 35, 55, 75, 90, 100] := by
  obtain ⟨fd, dfn, dl, ing, narr, tts, mon, fol, up⟩ := env
  cases fd <;> cases dl <;> cases ing <;> cases fol <;>
    simp_all [processClip, processAfterDownload, exceptIsOk]

/-- Witness for C7 (amended) at a successful Drive-sourced run. -/
theorem progress_checkpoints_on_success_witness :
    exceptIsOk (processClip envDriveOk "clip1").outcome = true ∧
    (processClip envDriveOk "clip1").trace =
      if envDriveOk.isFromDrive then [5, 15, 35, 55, 75, 90, 100]
      else [5, 35, 55, 75, 90, 100] :=
  ⟨by rfl, progress_checkpoints_on_success envDriveOk "clip1" (by rfl)⟩

/-! ## Claim C1 -/

/-- Counterexample for C1: after a fully successful first run, the second
run of the same pipeline still makes 1 ingest call and 2 narration calls —
the adapter call counts on the re-run are not zero, because `processClip`
never checks for an existing successful StageResult. -/
theorem rerun_counterexample :
    exceptIsOk (processClipTwice envDriveOk "clip1").1.outcome = true ∧
    (processClipTwice envDriveOk "clip1").2.ingestCalls = 1 ∧
    (processClipTwice envDriveOk "clip1").2.ingestCalls ≠ 0 ∧
    (processClipTwice envDriveOk "clip1").2.narrationCalls = 2 :=
  ⟨by rfl, by rfl, by decide, by rfl⟩

/-- Claim C1 (amended): re-running the pipeline for the same fingerprint
after a successful run produces an identical result — in particular
identical artifact paths — but performs all the stage work again: the
second run's adapter call counts equal the first run's (the ingest adapter
is invoked exactly once more, not zero times), since no StageResult check
exists. -/
theorem processClip_rerun_identical_but_repeats_work (env : ClipEnv)
    (clipId : String)
    (h : exceptIsOk (processClip env clipId).outcome = true) :
    (processClipTwice env clipId).2 = (processClipTwice env clipId).1 ∧
    (processClipTwice env clipId).2.ingestCalls = 1 := by
  refine ⟨rfl, ?_⟩
  obtain ⟨fd, dfn, dl, ing, narr, tts, mon, fol, up⟩ := env
  cases fd <;> cases dl <;> cases ing <;> cases fol <;>
    simp_all [processClip, processAfterDownload, processClipTwice,
      exceptIsOk]

/-- Witness for C1 (amended) at a successful Drive-sourced run. -/
theorem processClip_rerun_identical_but_repeats_work_witness :
    exceptIsOk (processClip envDriveOk "clip1").outcome = true ∧
    (processClipTwice envDriveOk "clip1").2 =
      (processClipTwice envDriveOk "clip1").1 ∧
    (processClipTwice envDriveOk "clip1").2.ingestCalls = 1 :=
  ⟨by rfl,
   (processClip_rerun_identical_but_repeats_work envDriveOk "clip1"
     (by rfl)).1,
   (processClip_rerun_identical_but_repeats_work envDriveOk "clip1"
     (by rfl)).2⟩

/-! ## Claim C3 -/

theorem mem_generateNarrations {env : ClipEnv} {clips : List String}
    {info : NarrationInfo} (h : info ∈ generateNarrations env clips) :
    exceptIsOk (env.narrationResult info.index) = true := by
  unfold generateNarrations at h
  rw [List.mem_filterMap] at h
  obtain ⟨ic, _, hic⟩ := h
  cases hr : env.narrationResult ic.1 with
  | ok n =>
    rw [hr] at hic
    injection hic with h2
    subst h2
    simp [exceptIsOk, hr]
  | error e => rw [hr] at hic; cases hic

theorem mem_generateAudioAndSubtitles {env : ClipEnv}
    {infos : List NarrationInfo} {a : AudioInfo}
    (h : a ∈ generateAudioAndSubtitles env infos) :
    ∃ info ∈ infos, a.index = info.index := by
  unfold generateAudioAndSubtitles at h
  rw [List.mem_filterMap] at h
  obtain ⟨info, hmem, hinfo⟩ := h
  cases hr : env.ttsResult info.index with
  | ok u =>
    rw [hr] at hinfo
    injection hinfo with h2
    subst h2
    exact ⟨info, hmem, rfl⟩
  | error e => rw [hr] at hinfo; cases hinfo

theorem mem_createFinalMontage {env : ClipEnv} {infos : List AudioInfo}
    {v : FinalVideo} (h : v ∈ createFinalMontage env infos) :
    ∃ a ∈ infos, v.index = a.index := by
  unfold createFinalMontage at h
  rw [List.mem_filterMap] at h
  obtain ⟨a, hmem, ha⟩ := h
  cases hr : env.montageResult a.index with
  | ok u =>
    rw [hr] at ha
    injection ha with h2
    subst h2
    exact ⟨a, hmem, rfl⟩
  | error e => rw [hr] at ha; cases ha

theorem processClip_ok_finalVideos {env : ClipEnv} {clipId : String}
    {p : Payload} (hp : (processClip env clipId).outcome = .ok p) :
    ∃ clips, env.ingestResult = .ok clips ∧
      p.finalVideos = createFinalMontage env
        (generateAudioAndSubtitles env (generateNarrations env clips)) := by
  obtain ⟨pc, pi, pf, pu⟩ := p
  obtain ⟨fd, dfn, dl, ing, narr, tts, mon, fol, up⟩ := env
  cases fd <;> cases dl <;> cases ing <;> cases fol <;>
    simp_all [processClip, processAfterDownload]
  all_goals exact hp.2.2.1.symm

/-- Counterexample for C3: in `envNarrFail` the narration stage fails with
a permanent error for clip 0, yet `processClip` completes successfully —
the job would end Done, not Error, and the error message is only logged,
with clip 0 silently dropped from the results. -/
theorem narration_failure_job_done_counterexample :
    exceptIsOk (envNarrFail.narrationResult 0) = false ∧
    exceptIsOk (processClip envNarrFail "clip1").outcome = true ∧
    (payloadD (processClip envNarrFail "clip1")).finalVideos.map
      FinalVideo.index = [1] :=
  ⟨by rfl, by rfl, by rfl⟩

/-- Claim C3 (amended): when the narration stage fails for a clip, that
clip is dropped from all later stages — no later stage runs for it and it
never appears in the final videos — but the job itself completes Done with
the remaining clips; only download, ingest and Drive-folder-creation
failures abort the job with an error. -/
theorem processClip_drops_failed_clip (env : ClipEnv) (clipId : String)
    (i : Nat) (p : Payload)
    (hp : (processClip env clipId).outcome = .ok p)
    (hfail : exceptIsOk (env.narrationResult i) = false) :
    i ∉ p.finalVideos.map FinalVideo.index := by
  intro hmem
  rw [List.mem_map] at hmem
  obtain ⟨v, hv, hvi⟩ := hmem
  obtain ⟨clips, _, hfin⟩ := processClip_ok_finalVideos hp
  rw [hfin] at hv
  obtain ⟨a, ha, hva⟩ := mem_createFinalMontage hv
  obtain ⟨info, hinfo, hai⟩ := mem_generateAudioAndSubtitles ha
  have hok := mem_generateNarrations hinfo
  rw [← hai, ← hva, hvi] at hok
  rw [hok] at hfail
  cases hfail

/-- Witness for C3 (amended) at `envNarrFail`: clip 0's narration fails, the
run succeeds, and index 0 is absent from the final videos. -/
theorem processClip_drops_failed_clip_witness :
    0 ∉ (payloadD (processClip envNarrFail "clip1")).finalVideos.map
      FinalVideo.index :=
  processClip_drops_failed_clip envNarrFail "clip1" 0
    (payloadD (processClip envNarrFail "clip1")) (by rfl) (by rfl)

/-! ## Subtitle timing lemmas -/

theorem splitSentences_trim_ne {text s : String}
    (h : s ∈ splitSentences text) : ¬ strTrim s = "" := by
  unfold splitSentences at h
  rw [List.mem_filter] at h
  intro hs
  have h2 := of_decide_eq_true h.2
  rw [hs] at h2
  exact absurd h2 (by decide)

theorem subsLoop_length (tps d : ℚ) :
    ∀ (ss : List String) (i : Nat) (start : ℚ),
      (∀ s ∈ ss, ¬ strTrim s = "") →
      (subsLoop tps d ss i start).length = ss.length := by
  intro ss
  induction ss with
  | nil => intro i start _; rfl
  | cons s rest ih =>
    intro i start hss
    have hs : ¬ strTrim s = "" := hss s (List.mem_cons_self s rest)
    simp [subsLoop, hs, ih (i + 1) (min (start + tps) d)
      (fun x hx => hss x (List.mem_cons_of_mem s hx))]

theorem subsLoop_get? (tps d : ℚ) (htps : 0 ≤ tps) :
    ∀ (ss : List String) (i : Nat) (start : ℚ),
      (∀ s ∈ ss, ¬ strTrim s = "") →
      start + (ss.length : ℚ) * tps ≤ d →
      ∀ k e, (subsLoop tps d ss i start).get? k = some e →
        e.start = start + (k : ℚ) * tps ∧
        e.stop = start + ((k : ℚ) + 1) * tps := by
  intro ss
  induction ss with
  | nil => intro i start _ _ k e he; simp [subsLoop] at he
  | cons s rest ih =>
    intro i start hss hle k e he
    have hs : ¬ strTrim s = "" := hss s (List.mem_cons_self s rest)
    have hrest : ∀ x ∈ rest, ¬ strTrim x = "" :=
      fun x hx => hss x (List.mem_cons_of_mem s hx)
    have hcast : ((s :: rest).length : ℚ) = (rest.length : ℚ) + 1 := by
      push_cast [List.length_cons]
      ring
    rw [hcast] at hle
    have hnn : 0 ≤ (rest.length : ℚ) * tps :=
      mul_nonneg (Nat.cast_nonneg _) htps
    have hbound : start + tps ≤ d := by nlinarith
    have hmin : min (start + tps) d = start + tps := min_eq_left hbound
    have hle2 : (start + tps) + (rest.length : ℚ) * tps ≤ d := by nlinarith
    simp only [subsLoop, hs, if_neg, ite_false, hmin] at he
    cases k with
    | zero =>
      simp only [List.get?_cons_zero] at he
      injection he with h2
      subst h2
      constructor <;> simp
    | succ k2 =>
      simp only [List.get?_cons_succ] at he
      obtain ⟨ih1, ih2⟩ := ih (i + 1) (start + tps) hrest hle2 k2 e he
      constructor
      · rw [ih1]
        push_cast
        ring
      · rw [ih2]
        push_cast
        ring

/-! ## Claim C8 -/

/-- Counterexample for C8: the worker's `generateSimpleSRT` — the subtitle
generator of the bullmq clip processor — does not distribute sentences
evenly across the clip duration: for a one-sentence, ten-word narration it
emits two fixed three-second word-chunk entries, not one interval, whatever
the clip duration (which it does not even receive). -/
theorem generateSimpleSRT_not_equal_share_counterexample :
    (splitSentences srtSampleText).length = 1 ∧
    (generateSimpleSRT srtSampleText).length = 2 ∧
    (generateSimpleSRT srtSampleText).length ≠
      (splitSentences srtSampleText).length :=
  ⟨by rfl, by rfl, by decide⟩

/-- Claim C8 (amended): the sentence-based generator `generateSubtitles`
(apps/worker/index.ts) distributes the n sentences evenly: the entries are
n contiguous in-order intervals starting at 0, the k-th running from
`k·(d/n)` to `(k+1)·(d/n)`, and the last ending exactly at `d`.  The claim
does not extend to the bullmq worker's `generateSimpleSRT`, which emits
fixed three-second word chunks independent of the clip duration. -/
theorem generateSubtitles_equal_share (text : String) (d : ℚ) (hd : 0 < d)
    (hne : splitSentences text ≠ []) :
    (generateSubtitles text d).length = (splitSentences text).length ∧
    ∀ k e, (generateSubtitles text d).get? k = some e →
      e.start = (k : ℚ) * (d / ((splitSentences text).length : ℚ)) ∧
      e.stop = ((k : ℚ) + 1) * (d / ((splitSentences text).length : ℚ)) ∧
      (k + 1 = (splitSentences text).length → e.stop = d) := by
  have htrim : ∀ s ∈ splitSentences text, ¬ strTrim s = "" :=
    fun s hs => splitSentences_trim_ne hs
  have hn : 0 < (splitSentences text).length := List.length_pos.mpr hne
  have hnq : (0 : ℚ) < ((splitSentences text).length : ℚ) := by
    exact_mod_cast hn
  have hne0 : ((splitSentences text).length : ℚ) ≠ 0 := ne_of_gt hnq
  have htps : 0 ≤ d / ((splitSentences text).length : ℚ) :=
    le_of_lt (div_pos hd hnq)
  have hcancel : ((splitSentences text).length : ℚ) *
      (d / ((splitSentences text).length : ℚ)) = d := by
    field_simp
  have hle : (0 : ℚ) + ((splitSentences text).length : ℚ) *
      (d / ((splitSentences text).length : ℚ)) ≤ d := by
    rw [zero_add, hcancel]
  constructor
  · simp only [generateSubtitles]
    exact subsLoop_length _ _ _ 0 0 htrim
  · intro k e he
    simp only [generateSubtitles] at he
    obtain ⟨h1, h2⟩ :=
      subsLoop_get? _ d htps (splitSentences text) 0 0 htrim hle k e he
    refine ⟨by rw [h1]; ring, by rw [h2]; ring, ?_⟩
    intro hk
    rw [h2, zero_add]
    have hkq : ((k : ℚ) + 1) = ((splitSentences text).length : ℚ) := by
      exact_mod_cast congrArg (Nat.cast (R := ℚ)) hk
    rw [hkq, hcancel]

/-- Witness for C8 (amended): a two-sentence text over a duration of 10
yields two entries. -/
theorem generateSubtitles_equal_share_witness :
    (0 : ℚ) < 10 ∧ splitSentences "Hello there. All good." ≠ [] ∧
    (generateSubtitles "Hello there. All good." 10).length =
      (splitSentences "Hello there. All good.").length :=
  ⟨by decide, by decide,
   (generateSubtitles_equal_share "Hello there. All good." 10 (by decide)
     (by decide)).1⟩

/-! ## Claim C9 -/

/-- Counterexample for C9: a punctuation-only narration splits into zero
sentences and subtitle generation produces zero entries — not the single
full-duration fallback entry the claim describes. -/
theorem zero_sentences_counterexample :
    splitSentences "..." = [] ∧
    generateSubtitles "..." 30 = [] ∧
    (generateSubtitles "..." 30).length ≠ 1 :=
  ⟨by decide, by decide, by decide⟩

/-- Claim C9 (amended): when the narration splits into zero sentences,
`generateSubtitles` produces an empty entry list (an empty `.srt` file) for
every duration — the subtitle loop simply never runs (no division-by-zero
failure occurs; the JavaScript `duration / 0` produces an unused
`Infinity`), and no single full-duration fallback entry exists. -/
theorem generateSubtitles_zero_sentences (text : String) (d : ℚ)
    (h : splitSentences text = []) : generateSubtitles text d = [] := by
  simp only [generateSubtitles, h]
  rfl

/-- Witness for C9 (amended) at the punctuation-only text. -/
theorem generateSubtitles_zero_sentences_witness :
    splitSentences "..." = [] ∧ generateSubtitles "..." 30 = [] :=
  ⟨by decide, generateSubtitles_zero_sentences "..." 30 (by decide)⟩

/-! ## String lemmas for receipt paths -/

theorem string_data_append (a b : String) :
    (a ++ b).data = a.data ++ b.data := by
  cases a
  cases b
  rfl

theorem string_eq_of_data {a b : String} (h : a.data = b.data) : a = b := by
  cases a
  cases b
  simp only at h
  rw [h]

theorem string_append_cancel_left {a b c : String}
    (h : a ++ b = a ++ c) : b = c := by
  apply string_eq_of_data
  have hd := congrArg String.data h
  rw [string_data_append, string_data_append] at hd
  exact List.append_cancel_left hd

theorem string_append_cancel_right {a b c : String}
    (h : a ++ c = b ++ c) : a = b := by
  apply string_eq_of_data
  have hd := congrArg String.data h
  rw [string_data_append, string_data_append] at hd
  exact List.append_cancel_right hd

theorem receiptPath_inj_now {clipId platform : String} {t1 t2 : Nat}
    (h : receiptPath clipId platform t1 = receiptPath clipId platform t2) :
    toString t1 = toString t2 := by
  unfold receiptPath at h
  exact string_append_cancel_left (string_append_cancel_right h)

/-! ## Claim C2 -/

/-- Counterexample for C2: publishing the same clip to the same platform
twice (at clock readings 1 and 2) succeeds both times and leaves two
receipt records, not one — there is no dedup check and no force flag in the
code. -/
theorem publish_twice_two_receipts_counterexample :
    exceptIsOk (publishTwice "clip1" "tiktok" 1 2).1.outcome = true ∧
    exceptIsOk (publishTwice "clip1" "tiktok" 1 2).2.outcome = true ∧
    (publishTwice "clip1" "tiktok" 1 2).2.store.length = 2 :=
  ⟨by rfl, by rfl, by rfl⟩

/-- Claim C2 (amended): each publish of a (clip, platform) pair appends a
fresh receipt, its file name keyed by the clock reading: publishing the
same pair twice, at distinct clock readings, creates exactly two receipt
records (a second publish overwrites the first only when both runs share
the same millisecond timestamp).  No dedup check and no force flag
exist. -/
theorem publish_twice_two_receipts (clipId platform : String)
    (t1 t2 : Nat)
    (hplat : platform = "youtube" ∨ platform = "tiktok" ∨
      platform = "meta")
    (ht : toString t1 ≠ toString t2) :
    (publishTwice clipId platform t1 t2).2.store.length = 2 ∧
    exceptIsOk (publishTwice clipId platform t1 t2).1.outcome = true ∧
    exceptIsOk (publishTwice clipId platform t1 t2).2.outcome = true := by
  have hpath : receiptPath clipId platform t1 ≠
      receiptPath clipId platform t2 :=
    fun hh => ht (receiptPath_inj_now hh)
  rcases hplat with hp | hp | hp <;> subst hp <;>
    simp [publishTwice, publishContent, uploadToPlatform,
      savePublishReceipt, writeFile, exceptIsOk, beq_iff_eq, hpath]

/-- Witness for C2 (amended) at clip "clip1", platform "tiktok", clock
readings 1 and 2. -/
theorem publish_twice_two_receipts_witness :
    ("tiktok" = "youtube" ∨ ("tiktok" : String) = "tiktok" ∨
      "tiktok" = "meta") ∧
    toString (1 : Nat) ≠ toString (2 : Nat) ∧
    (publishTwice "clip1" "tiktok" 1 2).2.store.length = 2 :=
  ⟨Or.inr (Or.inl rfl), by decide,
   (publish_twice_two_receipts "clip1" "tiktok" 1 2 (Or.inr (Or.inl rfl))
     (by decide)).1⟩

end ContentEngine
